import Mathlib

/-!
# topo_expl: the topology explorer driver

A shallow embedding of `src/tools/topo_expl/topo_expl.cpp`: the command-line
lookup helpers, the catalog of model descriptions, the `model_id` switch that
populates the network, and the four rank loops of `main`.

The run of `main` is represented by the ordered list of its observable events
(lines written with `printf`, allocations, the per-rank collaborator calls)
together with the way the process ends.
-/

namespace TopoExpl

/-! ## Machine integers and libc helpers -/

/-- Reduction of a mathematical integer to a 32-bit two's complement `int`
(the conversion `int model_id = atol(mi)` performs on an LP64 target). -/
def toInt32 (x : Int) : Int := (x + 2 ^ 31) % 2 ^ 32 - 2 ^ 31

/-- Lower bound of `long`. -/
def LONG_MIN : Int := -(2 ^ 63)

/-- Upper bound of `long`. -/
def LONG_MAX : Int := 2 ^ 63 - 1

/-- The white-space class of `isspace` in the C locale. -/
def isspace (c : Char) : Bool :=
  c = ' ' || c = '\t' || c = '\n' || c = '\x0b' || c = '\x0c' || c = '\r'

/-- Value of the leading run of decimal digits, accumulated left to right. -/
def digitsValue : List Char → Nat → Nat
  | [], acc => acc
  | c :: cs, acc => if c.isDigit then digitsValue cs (acc * 10 + (c.toNat - 48)) else acc

/-- Saturation of `strtol` at the bounds of `long`. -/
def clampLong (x : Int) : Int :=
  if x < LONG_MIN then LONG_MIN else if LONG_MAX < x then LONG_MAX else x

/-- The libc function `atol` (as `strtol(s, NULL, 10)`): leading white space is
skipped, an optional sign is read, then the longest run of decimal digits; a
token with no digits there yields 0. -/
def atol (s : String) : Int :=
  match s.toList.dropWhile isspace with
  | '-' :: cs => clampLong (-(digitsValue cs 0 : Nat))
  | '+' :: cs => clampLong (digitsValue cs 0 : Nat)
  | cs => clampLong (digitsValue cs 0 : Nat)

/-- The text `printf` writes for a `%d` conversion. -/
def fmtD (i : Int) : String :=
  if i < 0 then "-" ++ String.mk (Nat.toDigits 10 i.natAbs)
  else String.mk (Nat.toDigits 10 i.toNat)

/-- The text `printf` writes for a `%lx` conversion: lowercase hexadecimal of
the 64-bit unsigned value. -/
def fmtLx (v : Nat) : String := String.mk (Nat.toDigits 16 (v % 2 ^ 64))

/-! ## Command-line lookup (lines 53-64) -/

/-- The function `getCmdOption(begin, end, option)`: `std::find` locates the
first token equal to `option`; the token after it is returned when there is one, and the
null pointer (`none`) otherwise. -/
def getCmdOption : List String → String → Option String
  | [], _ => none
  | a :: rest, option => if a = option then rest.head? else getCmdOption rest option

/-- The function `cmdOptionExists(begin, end, option)`: whether `std::find`
stops before `end`. -/
def cmdOptionExists (argv : List String) (option : String) : Bool :=
  decide (option ∈ argv)

/-! ## The catalog of descriptions (lines 66-78) -/

/-- The `NULL`-terminated array `model_descriptions`. -/
def model_descriptions : List (Option String) :=
  [ some "4 nodes with 8 GPUs PCIe 1 NIC",
    some "4 nodes with 8 GPUs PCIe 2 NIC",
    some "2 nodes VEGA20 4P1H",
    some "4 nodes with 8 VEGA20 GPUs XGMI 4P2H 1 NIC",
    some "single node gfx908 4P3L",
    some "single node gfx908 8P6L",
    some "single node gfx908 8P6L Alt. Connection",
    some "single node 8 GPUs PCIe on Rome",
    some "4 nodes 8 GPUs PCIe 2 NICs on Rome",
    some "3 nodes 8 GPUs PCIe + 1 Rome 8 GPUs PCIe + 2 nodes gfx908 4P3L",
    none ]

/-- The string `printf` shows for `model_descriptions[model_id]` under `%s`. -/
def descriptionOf (model_id : Int) : String :=
  match model_descriptions[model_id.toNat]? with
  | some (some d) => d
  | _ => "(null)"

/-! ## Device and node descriptors (declared in `model.h`, built at lines 97-140) -/

/-- The bus identifier tables `busIds_8` and `rome_busIds_8`; their contents
are declared outside this source file and are taken as a parameter. -/
structure Tables where
  busIds_8 : Nat → Nat
  rome_busIds_8 : Nat → Nat

/-- Arguments of the `CpuDevices` constructor; the width constants are kept by
name. -/
structure CpuDevices where
  name : String
  qpiWidth : String
  cpuPciWidth : String
  pciWidth : String
deriving Inhabited

/-- Arguments of the `GpuDevices` constructor: device count, bus identifier
table, and the names of the path, NUMA and connectivity tables. -/
structure GpuDevices where
  nGpus : Nat
  busIds : Nat → Nat
  gpuPciPaths : String
  gpuPciNumaIds : String
  connMatrix : String
deriving Inhabited

/-- Arguments of the `NetDevices` constructor: interface count and the names
of the path, GUID and NUMA tables. -/
structure NetDevices where
  nNics : Nat
  netPciPaths : String
  netGuids : String
  netPciNumaIds : String
deriving Inhabited

/-- One simulated machine: the constructor arguments of `NodeModel`, the public
fields `nodeId` and `description` read by `main`, and the start of the rank
span the owning network assigns on append (the span is part of the spec's data
model; the class itself is declared in `model.h`). -/
structure NodeModel where
  cpus : CpuDevices
  gpus : GpuDevices
  nics : NetDevices
  description : String
  nodeId : Int := 0
  firstRank : Nat := 0
deriving Inhabited

/-- Modelled from the spec: `NodeModel::rankToCudaDev` (defined in `model.h`,
absent from the sources). For a rank inside the node's span it gives the device
index that rank drives, taken as the rank's offset in the span; outside the
span the lookup fails (`RankNotInNode`). -/
def NodeModel.rankToCudaDev (nd : NodeModel) (rank : Int) : Option Nat :=
  if (nd.firstRank : Int) ≤ rank ∧ rank < nd.firstRank + nd.gpus.nGpus then
    some (rank.toNat - nd.firstRank)
  else none

/-- Modelled from the spec: `NodeModel::getGpuBusId` (defined in `model.h`,
absent from the sources). The bus identifier of a device index, failing
(`DeviceIndexOutOfRange`) when the index is not below the device count. -/
def NodeModel.getGpuBusId (nd : NodeModel) (dev : Nat) : Option Nat :=
  if dev < nd.gpus.nGpus then some (nd.gpus.busIds dev) else none

/-- Modelled from the spec: the class `NetworkModel` (defined in `model.h`,
absent from the sources): the ordered sequence of appended nodes and the total
rank count. -/
structure NetworkModel where
  nodes : List NodeModel := []
  nRanks : Nat := 0

/-- Modelled from the spec: `NetworkModel::AddNode`. The appended node gets the
next contiguous rank span, sized to its device count, and the next node
identifier, and is put at the end of the sequence. -/
def NetworkModel.AddNode (net : NetworkModel) (nd : NodeModel) : NetworkModel :=
  { nodes := net.nodes ++ [{ nd with nodeId := net.nodes.length, firstRank := net.nRanks }],
    nRanks := net.nRanks + nd.gpus.nGpus }

/-- Modelled from the spec: `NetworkModel::GetNRanks`. -/
def NetworkModel.GetNRanks (net : NetworkModel) : Int := net.nRanks

/-- Modelled from the spec: `NetworkModel::GetNNodes`. -/
def NetworkModel.GetNNodes (net : NetworkModel) : Int := net.nodes.length

/-- Modelled from the spec: `NetworkModel::GetNode`. A rank below 0 or not
below the total rank count resolves to no node (`RankOutOfRange`, the null
pointer); otherwise a linear scan over the cumulative rank boundaries returns
the first node whose boundary lies above the rank. -/
def NetworkModel.GetNode (net : NetworkModel) (rank : Int) : Option NodeModel :=
  if rank < 0 ∨ (net.nRanks : Int) ≤ rank then none
  else net.nodes.find? (fun nd => decide (rank < nd.firstRank + nd.gpus.nGpus))

/-! ## The catalog of nodes (lines 97-140) -/

/-- The descriptor `skylake`. -/
def skylake : CpuDevices := ⟨"Skylake", "SKL_QPI_WIDTH", "SKL_CPUPCI_WIDTH", "SKL_PCI_WIDTH"⟩

/-- The descriptor `rome`. -/
def rome : CpuDevices := ⟨"Rome", "ROME_QPI_WIDTH", "ROME_CPUPCI_WIDTH", "ROME_PCI_WIDTH"⟩

/-- Accelerator set `vg20_pcie`. -/
def vg20_pcie (tb : Tables) : GpuDevices :=
  ⟨8, tb.busIds_8, "gpuPciPaths_8", "gpuPciNumaIds_8", "conn_mat_pcie"⟩

/-- Accelerator set `vg20_4p1h`. -/
def vg20_4p1h (tb : Tables) : GpuDevices :=
  ⟨4, tb.busIds_8, "gpuPciPaths_8", "gpuPciNumaIds_8", "conn_mat_4p2h"⟩

/-- Accelerator set `vg20_4p2h`. -/
def vg20_4p2h (tb : Tables) : GpuDevices :=
  ⟨8, tb.busIds_8, "gpuPciPaths_8", "gpuPciNumaIds_8", "conn_mat_4p2h"⟩

/-- Accelerator set `gfx908_4p3l`. -/
def gfx908_4p3l (tb : Tables) : GpuDevices :=
  ⟨4, tb.busIds_8, "gpuPciPaths_8", "gpuPciNumaIds_8", "conn_mat_8p6l"⟩

/-- Accelerator set `gfx908_8p6l`. -/
def gfx908_8p6l (tb : Tables) : GpuDevices :=
  ⟨8, tb.busIds_8, "gpuPciPaths_8", "gpuPciNumaIds_8", "conn_mat_8p6l"⟩

/-- Accelerator set `gfx908_8p6l_1`. -/
def gfx908_8p6l_1 (tb : Tables) : GpuDevices :=
  ⟨8, tb.busIds_8, "gpuPciPaths_8", "gpuPciNumaIds_8", "conn_mat_8p6l_1"⟩

/-- Accelerator set `vg20_pcie_rome`. -/
def vg20_pcie_rome (tb : Tables) : GpuDevices :=
  ⟨8, tb.rome_busIds_8, "rome_gpuPciPaths_8", "rome_gpuPciNumaIds_8", "conn_mat_rome"⟩

/-- Interface set `nic_1`. -/
def nic_1 : NetDevices := ⟨1, "netPciPaths_1", "netGuids_1", "netPciNumaIds_1"⟩

/-- Interface set `nic_1_1`. -/
def nic_1_1 : NetDevices := ⟨1, "netPciPaths_1_1", "netGuids_1", "netPciNumaIds_1"⟩

/-- Interface set `nic_2`. -/
def nic_2 : NetDevices := ⟨2, "netPciPaths_2", "netGuids_2", "netPciNumaIds_2"⟩

/-- Interface set `nic_1_rome`. -/
def nic_1_rome : NetDevices := ⟨1, "rome_netPciPaths_1", "rome_netGuids_1", "rom_netPciNumaIds_1"⟩

/-- Interface set `nic_2_rome`. -/
def nic_2_rome : NetDevices := ⟨2, "rome_netPciPaths_2", "rome_netGuids_2", "rom_netPciNumaIds_2"⟩

/-- Node `model_8pcie_1nic`. -/
def model_8pcie_1nic (tb : Tables) : NodeModel :=
  { cpus := skylake, gpus := vg20_pcie tb, nics := nic_1, description := "Skylake 8 GPUs PCIe" }

/-- Node `model_8pcie_2nic`. -/
def model_8pcie_2nic (tb : Tables) : NodeModel :=
  { cpus := skylake, gpus := vg20_pcie tb, nics := nic_2,
    description := "Skylake 8 GPUs PCIe 2 NIC" }

/-- Node `model_vg20_4p1h_1nic`. -/
def model_vg20_4p1h_1nic (tb : Tables) : NodeModel :=
  { cpus := skylake, gpus := vg20_4p1h tb, nics := nic_1, description := "Skylake VEGA20 4P1H" }

/-- Node `model_vg20_4p2h_1nic`. -/
def model_vg20_4p2h_1nic (tb : Tables) : NodeModel :=
  { cpus := skylake, gpus := vg20_4p2h tb, nics := nic_1_1, description := "Skylake VEGA20 4P2H" }

/-- Node `model_gfx908_4p_1nic`. -/
def model_gfx908_4p_1nic (tb : Tables) : NodeModel :=
  { cpus := skylake, gpus := gfx908_4p3l tb, nics := nic_1, description := "Skylake gfx908 4P3L" }

/-- Node `model_gfx908_8p_1nic`. -/
def model_gfx908_8p_1nic (tb : Tables) : NodeModel :=
  { cpus := skylake, gpus := gfx908_8p6l tb, nics := nic_1, description := "Skylake gfx908 8P6L" }

/-- Node `model_gfx908_8p_1nic_1`. -/
def model_gfx908_8p_1nic_1 (tb : Tables) : NodeModel :=
  { cpus := skylake, gpus := gfx908_8p6l_1 tb, nics := nic_1,
    description := "Skylake gfx908 8P6L Alt. Connection" }

/-- Node `model_8pcie_1nic_rome`. -/
def model_8pcie_1nic_rome (tb : Tables) : NodeModel :=
  { cpus := rome, gpus := vg20_pcie_rome tb, nics := nic_1_rome,
    description := "Rome 8 GPUs PCIe" }

/-- Node `model_8pcie_2nic_rome`. -/
def model_8pcie_2nic_rome (tb : Tables) : NodeModel :=
  { cpus := rome, gpus := vg20_pcie_rome tb, nics := nic_2_rome,
    description := "Rome 8 GPUs PCIe 2 NICs" }

/-! ## The `model_id` switch (lines 142-180) -/

/-- The nodes the `switch` appends for a model identifier, in order of
appending; `none` is the `default` label. -/
def switchNodes (tb : Tables) (model_id : Int) : Option (List NodeModel) :=
  if model_id = 0 then some (List.replicate 4 (model_8pcie_1nic tb))
  else if model_id = 1 then some (List.replicate 4 (model_8pcie_2nic tb))
  else if model_id = 2 then some (List.replicate 2 (model_vg20_4p1h_1nic tb))
  else if model_id = 3 then some (List.replicate 4 (model_vg20_4p2h_1nic tb))
  else if model_id = 4 then some [model_gfx908_4p_1nic tb]
  else if model_id = 5 then some [model_gfx908_8p_1nic tb]
  else if model_id = 6 then some [model_gfx908_8p_1nic_1 tb]
  else if model_id = 7 then some [model_8pcie_1nic_rome tb]
  else if model_id = 8 then some (List.replicate 4 (model_8pcie_2nic_rome tb))
  else if model_id = 9 then
    some (List.replicate 3 (model_8pcie_1nic tb) ++ [model_8pcie_1nic_rome tb]
      ++ List.replicate 2 (model_gfx908_4p_1nic tb))
  else none

/-- The network after the `switch`: every selected node is passed to `AddNode`
in order, starting from the empty `NetworkModel network`. -/
def buildNetwork (tb : Tables) (model_id : Int) : Option NetworkModel :=
  (switchNodes tb model_id).map (fun nds => nds.foldl NetworkModel.AddNode {})

/-! ## Events and state of a run -/

/-- The fields of `struct ncclComm` that `main` writes. -/
structure ncclComm where
  rank : Int := 0
  nRanks : Int := 0
deriving DecidableEq

/-- Observable steps of `main`, in program order. A `printf` event is the call
with the text it formats (what has left the process is `delivered`). A
collaborator call records the value of the global `node_model` at the call,
the index of the slot `&comm[i]` it is handed and the contents of that slot. -/
inductive Event where
  | printf (line : String)
  | ncclCalloc (block : String) (nelem : Int)
  | bootstrapAllGather (node_model : NodeModel) (slot : Nat) (comm : ncclComm)
  | initTransportsRank_1 (node_model : NodeModel) (slot : Nat) (comm : ncclComm)
  | initTransportsRank_3 (node_model : NodeModel) (slot : Nat) (comm : ncclComm)
  | free (block : String)

/-- How the process ends: `exit(code)`, `return code` from `main`, the abort of
a failed `assert` of `main`, or termination inside a lookup of `NodeModel`
(`rankToCudaDev`, `getGpuBusId`) that fails. -/
inductive Outcome where
  | exit (code : Int)
  | ret (code : Int)
  | abort
  | fatal
deriving DecidableEq

/-- A finished run. -/
structure Run where
  trace : List Event
  outcome : Outcome

/-- State threaded through the rank loops: the events so far, the global
pointer `node_model` (`none` is null), the block `comm`, whether the process
has been terminated, and whether that happened inside a lookup of `NodeModel`
rather than at an `assert` of `main`. -/
structure St where
  trace : List Event := []
  node_model : Option NodeModel := none
  comm : List ncclComm := []
  aborted : Bool := false
  inLookup : Bool := false

/-- A loop `for (int i = 0; i < n; i++) body`, where a termination inside the
body ends the process. -/
def forRanks (n : Nat) (body : Nat → St → St) (s : St) : St :=
  (List.range n).foldl (fun st i => if st.aborted then st else body i st) s

/-- The line of `printf("Rank %d: node %d (%s) GPU busId %lx\n", ...)`. -/
def rankLine (i : Int) (nodeId : Int) (description : String) (busId : Nat) : String :=
  "Rank " ++ fmtD i ++ ": node " ++ fmtD nodeId ++ " (" ++ description ++ ") GPU busId "
    ++ fmtLx busId ++ "\n"

/-- Body of the report loop (lines 188-193): `node_model` is reassigned, the
`assert` aborts on a null node, and `printf` is called with the line. `main`
has no check of its own on `rankToCudaDev` and `getGpuBusId`; when one of them
fails, the process ends inside that lookup (the spec makes a device index out
of range fatal) and `printf` is not reached. -/
def phase0Body (getNode : Int → Option NodeModel) (i : Nat) (s : St) : St :=
  match getNode i with
  | none => { s with node_model := none, aborted := true }
  | some nd =>
    match (nd.rankToCudaDev i).bind nd.getGpuBusId with
    | none => { s with node_model := some nd, aborted := true, inLookup := true }
    | some busId =>
      { s with node_model := some nd,
               trace := s.trace ++ [Event.printf (rankLine i nd.nodeId nd.description busId)] }

/-- Body of the first collaborator loop (lines 203-209): the two fields of
slot `i` are written, `node_model` is reassigned and asserted, and
`bootstrapAllGather` is called on the slot. -/
def phase1Body (nranks : Int) (getNode : Int → Option NodeModel) (i : Nat) (s : St) : St :=
  let comm := s.comm.modify (fun c => { c with rank := i }) i
  let comm := comm.modify (fun c => { c with nRanks := nranks }) i
  match getNode i with
  | none => { s with comm := comm, node_model := none, aborted := true }
  | some nd =>
    { s with comm := comm, node_model := some nd,
             trace := s.trace ++ [Event.bootstrapAllGather nd i (comm.getD i {})] }

/-- Body of the second collaborator loop (lines 213-217). -/
def phase2Body (getNode : Int → Option NodeModel) (i : Nat) (s : St) : St :=
  match getNode i with
  | none => { s with node_model := none, aborted := true }
  | some nd =>
    { s with node_model := some nd,
             trace := s.trace ++ [Event.initTransportsRank_1 nd i (s.comm.getD i {})] }

/-- Body of the third collaborator loop (lines 219-223). -/
def phase3Body (getNode : Int → Option NodeModel) (i : Nat) (s : St) : St :=
  match getNode i with
  | none => { s with node_model := none, aborted := true }
  | some nd =>
    { s with node_model := some nd,
             trace := s.trace ++ [Event.initTransportsRank_3 nd i (s.comm.getD i {})] }

/-- Lines 182-231 of `main`, on the values `GetNRanks`, `GetNNodes` and
`GetNode` give for the network. A failed `assert` ends the process after the
events so far; the text of the `printf` calls among them is still in the
buffer of `stdout` unless the stream has written it out (see `delivered`). The checked allocations are taken to succeed and to return
zeroed blocks. The collaborators `bootstrapAllGather`, `initTransportsRank_1`
and `initTransportsRank_3` are outside this file; they fill the gather buffers,
the graphs and transport state, and the fields `rank` and `nRanks` of a slot
and the pointer `node_model` are written by `main` only. -/
def simulate (model_id nranks nnodes : Int) (getNode : Int → Option NodeModel) : Run :=
  let n := nranks.toNat
  let s0 : St :=
    { trace := [Event.printf ("Generating topology using " ++ fmtD model_id ++ ": "
          ++ descriptionOf model_id ++ "\n"),
        Event.printf ("nnodes = " ++ fmtD nnodes ++ ", nranks = " ++ fmtD nranks ++ "\n")] }
  let s1 := forRanks n (phase0Body getNode) s0
  if s1.aborted then
    { trace := s1.trace, outcome := if s1.inLookup then Outcome.fatal else Outcome.abort }
  else
  let s2 : St :=
    { s1 with
      trace := s1.trace ++ [Event.ncclCalloc "comm" nranks,
        Event.ncclCalloc "allGather1Data" nranks, Event.ncclCalloc "allGather3Data" nranks],
      comm := List.replicate n {} }
  let s3 := forRanks n (phase1Body nranks getNode) s2
  if s3.aborted then { trace := s3.trace, outcome := Outcome.abort } else
  let s4 := forRanks n (phase2Body getNode) s3
  if s4.aborted then { trace := s4.trace, outcome := Outcome.abort } else
  let s5 := forRanks n (phase3Body getNode) s4
  if s5.aborted then { trace := s5.trace, outcome := Outcome.abort } else
  { trace := s5.trace ++ [Event.free "allGather3Data", Event.free "allGather1Data",
      Event.free "comm", Event.printf ("Done generating topology using " ++ fmtD model_id
        ++ ": " ++ descriptionOf model_id ++ "\n")],
    outcome := Outcome.ret 0 }

/-- The loop `for (i = 0; model_descriptions[i] != NULL; i++) printf(...)`
(lines 87-88) from index `i` on the remaining table entries. -/
def usageLoop : List (Option String) → Nat → List Event
  | some d :: rest, i =>
    Event.printf ("  " ++ fmtD i ++ ": " ++ d ++ "\n") :: usageLoop rest (i + 1)
  | _, _ => []

/-- The value of `model_id` after lines 92-95. -/
def parseModelId (argv : List String) : Int :=
  match getCmdOption argv "-m" with
  | some mi => toInt32 (atol mi)
  | none => 0

/-- The function `main` on the argument vector `argv[0..argc)`. -/
def main (tb : Tables) (argv : List String) : Run :=
  if !cmdOptionExists argv "-m" then
    { trace := Event.printf "Usage: ./topo_expl -m model_id\n"
        :: Event.printf "List of model_id:\n" :: usageLoop model_descriptions 0,
      outcome := Outcome.exit 0 }
  else
    let model_id := parseModelId argv
    match buildNetwork tb model_id with
    | none =>
      { trace := [Event.printf ("Invalid model_id " ++ fmtD model_id ++ "\n")],
        outcome := Outcome.exit 0 }
    | some network =>
      simulate model_id network.GetNRanks network.GetNNodes network.GetNode

/-- Illustrative contents for the bus identifier tables, used to evaluate runs
on concrete inputs. -/
def sampleTables : Tables :=
  { busIds_8 := fun i => 0x1a000 + 0x1000 * i,
    rome_busIds_8 := fun i => 0x63000 + 0x20000 * i }

/-- A sample command line selecting catalog entry 4. -/
def sampleArgv : List String := ["./topo_expl", "-m", "4"]

/-- The per-rank line in the spec's words: `Rank <r>: node <n> (<description>)
accelerator bus id <hex>`, with the line terminator. -/
def specRankLine (i : Int) (nodeId : Int) (description : String) (busId : Nat) : String :=
  "Rank " ++ fmtD i ++ ": node " ++ fmtD nodeId ++ " (" ++ description
    ++ ") accelerator bus id " ++ fmtLx busId ++ "\n"

/-- A command line whose model identifier does not fit a 32-bit `int`. -/
def wideArgv : List String := ["./topo_expl", "-m", "4294967296"]

/-! ## Observations on a trace -/

/-- The three per-rank collaborators `main` calls. -/
inductive Collaborator where
  | bootstrapAllGather
  | initTransportsRank_1
  | initTransportsRank_3
deriving DecidableEq

/-- The collaborator and rank index of a per-rank call event. -/
def Event.call? : Event → Option (Collaborator × Nat)
  | Event.bootstrapAllGather _ i _ => some (Collaborator.bootstrapAllGather, i)
  | Event.initTransportsRank_1 _ i _ => some (Collaborator.initTransportsRank_1, i)
  | Event.initTransportsRank_3 _ i _ => some (Collaborator.initTransportsRank_3, i)
  | _ => none

/-- The text of a `printf` call. -/
def Event.line? : Event → Option String
  | Event.printf l => some l
  | _ => none

/-- The per-rank collaborator calls of a trace, in order. -/
def callsOf (t : List Event) : List (Collaborator × Nat) := t.filterMap Event.call?

/-- The lines passed to `printf`, in order. -/
def linesOf (t : List Event) : List String := t.filterMap Event.line?

/-- The trace of a run of lines 182-231 in which no `assert` fails, given the
node and the bus identifier of every rank. -/
def fullTrace (model_id nranks nnodes : Int) (nodeOf : Nat → NodeModel) (busOf : Nat → Nat) :
    List Event :=
  [Event.printf ("Generating topology using " ++ fmtD model_id ++ ": "
      ++ descriptionOf model_id ++ "\n"),
    Event.printf ("nnodes = " ++ fmtD nnodes ++ ", nranks = " ++ fmtD nranks ++ "\n")]
  ++ (List.range nranks.toNat).map (fun (i : Nat) =>
      Event.printf (rankLine i (nodeOf i).nodeId (nodeOf i).description (busOf i)))
  ++ [Event.ncclCalloc "comm" nranks, Event.ncclCalloc "allGather1Data" nranks,
      Event.ncclCalloc "allGather3Data" nranks]
  ++ (List.range nranks.toNat).map (fun (i : Nat) =>
      Event.bootstrapAllGather (nodeOf i) i { rank := i, nRanks := nranks })
  ++ (List.range nranks.toNat).map (fun (i : Nat) =>
      Event.initTransportsRank_1 (nodeOf i) i { rank := i, nRanks := nranks })
  ++ (List.range nranks.toNat).map (fun (i : Nat) =>
      Event.initTransportsRank_3 (nodeOf i) i { rank := i, nRanks := nranks })
  ++ [Event.free "allGather3Data", Event.free "allGather1Data", Event.free "comm",
      Event.printf ("Done generating topology using " ++ fmtD model_id ++ ": "
        ++ descriptionOf model_id ++ "\n")]

/-- Consecutive rank spans: the nodes of the list start at `a`, each starts
where the previous one ends, and the last one ends at `b`. -/
def Contig : Nat → List NodeModel → Nat → Prop
  | a, [], b => a = b
  | a, nd :: rest, b => nd.firstRank = a ∧ Contig (a + nd.gpus.nGpus) rest b

/-! ## The rank loops -/

theorem forRanks_zero (body : Nat → St → St) (s : St) : forRanks 0 body s = s := by
  simp [forRanks]

theorem forRanks_succ (n : Nat) (body : Nat → St → St) (s : St) :
    forRanks (n + 1) body s =
      if (forRanks n body s).aborted then forRanks n body s else body n (forRanks n body s) := by
  simp [forRanks, List.range_succ, List.foldl_append]

theorem forRanks_aborted (n : Nat) (body : Nat → St → St) (s : St) (h : s.aborted = true) :
    forRanks n body s = s := by
  induction n with
  | zero => exact forRanks_zero body s
  | succ k ih => rw [forRanks_succ, ih]; simp [h]

/-- The report loop when every rank below `n` resolves: one line per rank. -/
theorem phase0_ok (getNode : Int → Option NodeModel) (nodeOf : Nat → NodeModel)
    (busOf : Nat → Nat) (n : Nat)
    (h : ∀ i < n, getNode (i : Int) = some (nodeOf i) ∧
      ((nodeOf i).rankToCudaDev i).bind (nodeOf i).getGpuBusId = some (busOf i))
    (s : St) (hs : s.aborted = false) :
    (forRanks n (phase0Body getNode) s).trace = s.trace ++ (List.range n).map (fun (i : Nat) =>
        Event.printf (rankLine i (nodeOf i).nodeId (nodeOf i).description (busOf i)))
      ∧ (forRanks n (phase0Body getNode) s).aborted = false
      ∧ (forRanks n (phase0Body getNode) s).comm = s.comm
      ∧ (forRanks n (phase0Body getNode) s).inLookup = s.inLookup := by
  induction n with
  | zero => simp [forRanks_zero, hs]
  | succ k ih =>
    obtain ⟨h1, h2, h3, h4⟩ := ih (fun i hi => h i (Nat.lt_succ_of_lt hi))
    obtain ⟨hn, hb⟩ := h k (Nat.lt_succ_self k)
    rw [forRanks_succ]
    simp [h2, phase0Body, hn, hb, h1, h3, h4, List.range_succ]

/-- The second and third collaborator loops when every rank below `n`
resolves. -/
theorem phase2_ok (getNode : Int → Option NodeModel) (nodeOf : Nat → NodeModel) (n : Nat)
    (h : ∀ i < n, getNode (i : Int) = some (nodeOf i))
    (s : St) (hs : s.aborted = false) :
    (forRanks n (phase2Body getNode) s).trace = s.trace ++ (List.range n).map (fun i =>
        Event.initTransportsRank_1 (nodeOf i) i (s.comm.getD i {}))
      ∧ (forRanks n (phase2Body getNode) s).aborted = false
      ∧ (forRanks n (phase2Body getNode) s).comm = s.comm := by
  induction n with
  | zero => simp [forRanks_zero, hs]
  | succ k ih =>
    obtain ⟨h1, h2, h3⟩ := ih (fun i hi => h i (Nat.lt_succ_of_lt hi))
    have hn := h k (Nat.lt_succ_self k)
    rw [forRanks_succ]
    simp [h2, phase2Body, hn, h1, h3, List.range_succ]

theorem phase3_ok (getNode : Int → Option NodeModel) (nodeOf : Nat → NodeModel) (n : Nat)
    (h : ∀ i < n, getNode (i : Int) = some (nodeOf i))
    (s : St) (hs : s.aborted = false) :
    (forRanks n (phase3Body getNode) s).trace = s.trace ++ (List.range n).map (fun i =>
        Event.initTransportsRank_3 (nodeOf i) i (s.comm.getD i {}))
      ∧ (forRanks n (phase3Body getNode) s).aborted = false
      ∧ (forRanks n (phase3Body getNode) s).comm = s.comm := by
  induction n with
  | zero => simp [forRanks_zero, hs]
  | succ k ih =>
    obtain ⟨h1, h2, h3⟩ := ih (fun i hi => h i (Nat.lt_succ_of_lt hi))
    have hn := h k (Nat.lt_succ_self k)
    rw [forRanks_succ]
    simp [h2, phase3Body, hn, h1, h3, List.range_succ]

/-- The first collaborator loop when every rank below `k` resolves: slot `i`
holds rank `i` and the rank count when its call is made, and keeps them. -/
theorem phase1_ok (nranks : Int) (getNode : Int → Option NodeModel)
    (nodeOf : Nat → NodeModel) (n k : Nat) (hk : k ≤ n)
    (h : ∀ i < k, getNode (i : Int) = some (nodeOf i))
    (s : St) (hs : s.aborted = false) (hlen : s.comm.length = n) :
    (forRanks k (phase1Body nranks getNode) s).trace = s.trace ++ (List.range k).map (fun i =>
        Event.bootstrapAllGather (nodeOf i) i { rank := i, nRanks := nranks })
      ∧ (forRanks k (phase1Body nranks getNode) s).aborted = false
      ∧ (forRanks k (phase1Body nranks getNode) s).comm.length = n
      ∧ ∀ j < k, (forRanks k (phase1Body nranks getNode) s).comm.getD j {}
          = { rank := j, nRanks := nranks } := by
  induction k with
  | zero => simp [forRanks_zero, hs, hlen]
  | succ k ih =>
    obtain ⟨h1, h2, h3, h4⟩ := ih (Nat.le_of_succ_le hk) (fun i hi => h i (Nat.lt_succ_of_lt hi))
    have hn := h k (Nat.lt_succ_self k)
    have hkn : k < n := hk
    rw [forRanks_succ]
    simp only [h2, Bool.false_eq_true, ↓reduceIte, phase1Body, hn]
    refine ⟨?_, ?_, ?_, ?_⟩
    · simp [h1, List.range_succ, List.getD_eq_getElem?_getD, List.getElem?_modify, h3, hkn]
    · trivial
    · simp [h3]
    · intro j hj
      rcases Nat.lt_succ_iff_lt_or_eq.mp hj with hlt | heq
      · have hne : k ≠ j := by omega
        have := h4 j hlt
        simp only [List.getD_eq_getElem?_getD] at this ⊢
        simp [List.getElem?_modify, hne, this]
      · subst heq
        simp [List.getD_eq_getElem?_getD, List.getElem?_modify, h3, hkn]

/-- A complete run of lines 182-231 when every rank below `nranks` resolves to
a node and a bus identifier: the whole trace, in order. -/
theorem simulate_ok (model_id nranks nnodes : Int) (getNode : Int → Option NodeModel)
    (nodeOf : Nat → NodeModel) (busOf : Nat → Nat)
    (h : ∀ i < nranks.toNat, getNode (i : Int) = some (nodeOf i) ∧
      ((nodeOf i).rankToCudaDev i).bind (nodeOf i).getGpuBusId = some (busOf i)) :
    (simulate model_id nranks nnodes getNode).trace
        = fullTrace model_id nranks nnodes nodeOf busOf
    ∧ (simulate model_id nranks nnodes getNode).outcome = Outcome.ret 0 := by
  have hnode : ∀ i < nranks.toNat, getNode (i : Int) = some (nodeOf i) := fun i hi => (h i hi).1
  generalize hs0 : ({ trace := [Event.printf ("Generating topology using " ++ fmtD model_id
      ++ ": " ++ descriptionOf model_id ++ "\n"), Event.printf ("nnodes = " ++ fmtD nnodes
      ++ ", nranks = " ++ fmtD nranks ++ "\n")] } : St) = s0
  have hs0a : s0.aborted = false := by subst hs0; rfl
  have hs0t : s0.trace = [Event.printf ("Generating topology using " ++ fmtD model_id
      ++ ": " ++ descriptionOf model_id ++ "\n"), Event.printf ("nnodes = " ++ fmtD nnodes
      ++ ", nranks = " ++ fmtD nranks ++ "\n")] := by subst hs0; rfl
  obtain ⟨a1, a2, -⟩ := phase0_ok getNode nodeOf busOf nranks.toNat h s0 hs0a
  generalize hs1 : forRanks nranks.toNat (phase0Body getNode) s0 = s1 at a1 a2
  generalize hs2 : ({ s1 with
      trace := s1.trace ++ [Event.ncclCalloc "comm" nranks,
        Event.ncclCalloc "allGather1Data" nranks, Event.ncclCalloc "allGather3Data" nranks],
      comm := List.replicate nranks.toNat {} } : St) = s2
  have hs2a : s2.aborted = false := by subst hs2; exact a2
  have hs2l : s2.comm.length = nranks.toNat := by subst hs2; simp
  obtain ⟨b1, b2, b3, b4⟩ := phase1_ok nranks getNode nodeOf nranks.toNat nranks.toNat
    (Nat.le_refl _) hnode s2 hs2a hs2l
  generalize hs3 : forRanks nranks.toNat (phase1Body nranks getNode) s2 = s3 at b1 b2 b3 b4
  obtain ⟨c1, c2, c3⟩ := phase2_ok getNode nodeOf nranks.toNat hnode s3 b2
  generalize hs4 : forRanks nranks.toNat (phase2Body getNode) s3 = s4 at c1 c2 c3
  obtain ⟨d1, d2, d3⟩ := phase3_ok getNode nodeOf nranks.toNat hnode s4 c2
  generalize hs5 : forRanks nranks.toNat (phase3Body getNode) s4 = s5 at d1 d2 d3
  have key : simulate model_id nranks nnodes getNode =
      { trace := s5.trace ++ [Event.free "allGather3Data", Event.free "allGather1Data",
          Event.free "comm", Event.printf ("Done generating topology using " ++ fmtD model_id
            ++ ": " ++ descriptionOf model_id ++ "\n")],
        outcome := Outcome.ret 0 } := by
    subst hs5 hs4 hs3 hs2 hs1 hs0
    unfold simulate
    dsimp only
    rw [if_neg (by simp [a2]), if_neg (by simp [b2]), if_neg (by simp [c2]),
      if_neg (by simp [d2])]
  have hmap1 : (List.range nranks.toNat).map (fun (i : Nat) =>
      Event.initTransportsRank_1 (nodeOf i) i (s3.comm.getD i {}))
      = (List.range nranks.toNat).map (fun (i : Nat) =>
      Event.initTransportsRank_1 (nodeOf i) i { rank := i, nRanks := nranks }) :=
    List.map_congr_left (fun i hi => by rw [b4 i (List.mem_range.mp hi)])
  have hmap3 : (List.range nranks.toNat).map (fun (i : Nat) =>
      Event.initTransportsRank_3 (nodeOf i) i (s4.comm.getD i {}))
      = (List.range nranks.toNat).map (fun (i : Nat) =>
      Event.initTransportsRank_3 (nodeOf i) i { rank := i, nRanks := nranks }) :=
    List.map_congr_left (fun i hi => by rw [c3, b4 i (List.mem_range.mp hi)])
  rw [key]
  refine ⟨?_, rfl⟩
  have t2 : s2.trace = s1.trace ++ [Event.ncclCalloc "comm" nranks,
      Event.ncclCalloc "allGather1Data" nranks, Event.ncclCalloc "allGather3Data" nranks] := by
    subst hs2; rfl
  simp only [fullTrace, d1, c1, b1, t2, a1, hs0t, hmap1, hmap3, List.append_assoc,
    List.cons_append, List.nil_append]

/-! ## The network the switch builds -/

theorem contig_snoc (nd : NodeModel) :
    ∀ (l : List NodeModel) (a b : Nat), Contig a l b → nd.firstRank = b →
      Contig a (l ++ [nd]) (b + nd.gpus.nGpus)
  | [], a, b, h, hf => by
    simp only [Contig] at h
    subst h
    exact ⟨hf, rfl⟩
  | x :: rest, a, b, h, hf => by
    obtain ⟨h1, h2⟩ := h
    exact ⟨h1, contig_snoc nd rest _ b h2 hf⟩

theorem addNode_contig (net : NetworkModel) (nd : NodeModel)
    (h : Contig 0 net.nodes net.nRanks) :
    Contig 0 (net.AddNode nd).nodes (net.AddNode nd).nRanks :=
  contig_snoc { nd with nodeId := net.nodes.length, firstRank := net.nRanks } net.nodes 0
    net.nRanks h rfl

theorem foldl_addNode_contig (nds : List NodeModel) :
    ∀ net : NetworkModel, Contig 0 net.nodes net.nRanks →
      Contig 0 (nds.foldl NetworkModel.AddNode net).nodes
        (nds.foldl NetworkModel.AddNode net).nRanks := by
  induction nds with
  | nil => intro net h; exact h
  | cons nd rest ih => intro net h; exact ih _ (addNode_contig net nd h)

/-- The scan of `GetNode` over consecutive spans finds a node whose span holds
the rank. -/
theorem contig_find (r : Nat) :
    ∀ (l : List NodeModel) (a b : Nat), Contig a l b → a ≤ r → r < b →
      ∃ nd, l.find? (fun nd => decide ((r : Int) < nd.firstRank + nd.gpus.nGpus)) = some nd
        ∧ nd.firstRank ≤ r ∧ r < nd.firstRank + nd.gpus.nGpus
  | [], a, b, h, h1, h2 => by
    simp only [Contig] at h
    omega
  | x :: rest, a, b, h, h1, h2 => by
    obtain ⟨hx, hrest⟩ := h
    by_cases hr : r < x.firstRank + x.gpus.nGpus
    · refine ⟨x, ?_, by omega, hr⟩
      have : (r : Int) < x.firstRank + x.gpus.nGpus := by exact_mod_cast hr
      simp [List.find?, this]
    · obtain ⟨nd, hf, hb⟩ := contig_find r rest _ b hrest (by omega) h2
      refine ⟨nd, ?_, hb⟩
      have : ¬ (r : Int) < x.firstRank + x.gpus.nGpus := by exact_mod_cast hr
      simp [List.find?, this, hf]

/-- In a network of consecutive spans every rank below the rank count resolves
to a node, a device of that node and its bus identifier. -/
theorem getNode_resolves (net : NetworkModel) (h : Contig 0 net.nodes net.nRanks)
    (r : Nat) (hr : r < net.nRanks) :
    ∃ nd, net.GetNode r = some nd
      ∧ nd.rankToCudaDev r = some (r - nd.firstRank)
      ∧ nd.getGpuBusId (r - nd.firstRank) = some (nd.gpus.busIds (r - nd.firstRank)) := by
  obtain ⟨nd, hf, h1, h2⟩ := contig_find r net.nodes 0 net.nRanks h (Nat.zero_le r) hr
  refine ⟨nd, ?_, ?_, ?_⟩
  · have h0 : ¬ ((r : Int) < 0 ∨ (net.nRanks : Int) ≤ r) := by omega
    simp only [NetworkModel.GetNode, h0, ↓reduceIte, hf]
  · have hc : (nd.firstRank : Int) ≤ r ∧ (r : Int) < nd.firstRank + nd.gpus.nGpus := by omega
    simp [NodeModel.rankToCudaDev, hc]
  · have hc : r - nd.firstRank < nd.gpus.nGpus := by omega
    simp [NodeModel.getGpuBusId, hc]

/-- The `switch` reaches a `case` label exactly for the identifiers 0..9. -/
theorem switchNodes_isSome (tb : Tables) (model_id : Int) :
    (switchNodes tb model_id).isSome = true ↔ 0 ≤ model_id ∧ model_id ≤ 9 := by
  constructor
  · intro h
    by_contra hc
    have e0 : model_id ≠ 0 := by omega
    have e1 : model_id ≠ 1 := by omega
    have e2 : model_id ≠ 2 := by omega
    have e3 : model_id ≠ 3 := by omega
    have e4 : model_id ≠ 4 := by omega
    have e5 : model_id ≠ 5 := by omega
    have e6 : model_id ≠ 6 := by omega
    have e7 : model_id ≠ 7 := by omega
    have e8 : model_id ≠ 8 := by omega
    have e9 : model_id ≠ 9 := by omega
    simp [switchNodes, e0, e1, e2, e3, e4, e5, e6, e7, e8, e9] at h
  · rintro ⟨h0, h9⟩
    interval_cases model_id <;> simp [switchNodes]

theorem buildNetwork_contig (tb : Tables) (model_id : Int) (net : NetworkModel)
    (h : buildNetwork tb model_id = some net) : Contig 0 net.nodes net.nRanks := by
  unfold buildNetwork at h
  cases hs : switchNodes tb model_id with
  | none => simp [hs] at h
  | some nds =>
    simp only [hs, Option.map_some', Option.some.injEq] at h
    subst h
    exact foldl_addNode_contig nds {} rfl

theorem buildNetwork_valid (tb : Tables) (model_id : Int) (h0 : 0 ≤ model_id)
    (h9 : model_id ≤ 9) : ∃ net, buildNetwork tb model_id = some net := by
  have := (switchNodes_isSome tb model_id).mpr ⟨h0, h9⟩
  obtain ⟨nds, hn⟩ := Option.isSome_iff_exists.mp this
  exact ⟨nds.foldl NetworkModel.AddNode {}, by simp [buildNetwork, hn]⟩

/-! ## A run with a valid model identifier -/

/-- With `-m` present and a model identifier in 0..9 the network is built, every
rank resolves, and the run is the complete trace ending in `return 0`. -/
theorem main_valid (tb : Tables) (argv : List String)
    (hm : cmdOptionExists argv "-m" = true)
    (h0 : 0 ≤ parseModelId argv) (h9 : parseModelId argv ≤ 9) :
    ∃ (net : NetworkModel) (nodeOf : Nat → NodeModel) (busOf : Nat → Nat),
      buildNetwork tb (parseModelId argv) = some net
      ∧ (∀ i < net.nRanks, net.GetNode (i : Int) = some (nodeOf i)
          ∧ (nodeOf i).rankToCudaDev i = some (i - (nodeOf i).firstRank)
          ∧ (nodeOf i).getGpuBusId (i - (nodeOf i).firstRank) = some (busOf i))
      ∧ (main tb argv).trace
          = fullTrace (parseModelId argv) net.GetNRanks net.GetNNodes nodeOf busOf
      ∧ (main tb argv).outcome = Outcome.ret 0 := by
  obtain ⟨net, hnet⟩ := buildNetwork_valid tb (parseModelId argv) h0 h9
  have hc := buildNetwork_contig tb _ net hnet
  have hres : ∀ i < net.nRanks,
      net.GetNode (i : Int) = some ((net.GetNode (i : Int)).getD default)
      ∧ ((net.GetNode (i : Int)).getD default).rankToCudaDev i
          = some (i - ((net.GetNode (i : Int)).getD default).firstRank)
      ∧ ((net.GetNode (i : Int)).getD default).getGpuBusId
            (i - ((net.GetNode (i : Int)).getD default).firstRank)
          = some (((net.GetNode (i : Int)).getD default).gpus.busIds
              (i - ((net.GetNode (i : Int)).getD default).firstRank)) := by
    intro i hi
    obtain ⟨nd, e1, e2, e3⟩ := getNode_resolves net hc i hi
    simp only [e1, Option.getD_some]
    exact ⟨trivial, e2, e3⟩
  refine ⟨net, fun i => (net.GetNode (i : Int)).getD default,
    fun i => ((net.GetNode (i : Int)).getD default).gpus.busIds
      (i - ((net.GetNode (i : Int)).getD default).firstRank), hnet, hres, ?_⟩
  have hmain : main tb argv = simulate (parseModelId argv) net.GetNRanks net.GetNNodes
      net.GetNode := by
    simp [main, hm, hnet]
  rw [hmain]
  apply simulate_ok
  intro i hi
  have hi2 : i < net.nRanks := by simpa [NetworkModel.GetNRanks] using hi
  obtain ⟨e1, e2, e3⟩ := hres i hi2
  refine ⟨e1, ?_⟩
  rw [e2]
  exact e3

theorem filterMap_none_fun {α β : Type} (l : List α) :
    l.filterMap (fun _ => (none : Option β)) = [] := by
  induction l with
  | nil => rfl
  | cons a t ih => simp [List.filterMap_cons, ih]

theorem filterMap_some_fun {α β : Type} (f : α → β) (l : List α) :
    l.filterMap (fun x => some (f x)) = l.map f := by
  induction l with
  | nil => rfl
  | cons a t ih => simp [List.filterMap_cons, ih]

theorem callsOf_fullTrace (model_id nranks nnodes : Int) (nodeOf : Nat → NodeModel)
    (busOf : Nat → Nat) :
    callsOf (fullTrace model_id nranks nnodes nodeOf busOf) =
      (List.range nranks.toNat).map (fun i => (Collaborator.bootstrapAllGather, i))
      ++ (List.range nranks.toNat).map (fun i => (Collaborator.initTransportsRank_1, i))
      ++ (List.range nranks.toNat).map (fun i => (Collaborator.initTransportsRank_3, i)) := by
  simp [callsOf, fullTrace, List.filterMap_append, List.filterMap_map, Event.call?,
    Function.comp_def, filterMap_none_fun, filterMap_some_fun]

theorem linesOf_fullTrace (model_id nranks nnodes : Int) (nodeOf : Nat → NodeModel)
    (busOf : Nat → Nat) :
    linesOf (fullTrace model_id nranks nnodes nodeOf busOf) =
      [("Generating topology using " ++ fmtD model_id ++ ": " ++ descriptionOf model_id ++ "\n"),
        ("nnodes = " ++ fmtD nnodes ++ ", nranks = " ++ fmtD nranks ++ "\n")]
      ++ (List.range nranks.toNat).map (fun (i : Nat) =>
          rankLine i (nodeOf i).nodeId (nodeOf i).description (busOf i))
      ++ [("Done generating topology using " ++ fmtD model_id ++ ": "
          ++ descriptionOf model_id ++ "\n")] := by
  simp [linesOf, fullTrace, List.filterMap_append, List.filterMap_map, Event.line?,
    Function.comp_def, filterMap_none_fun, filterMap_some_fun]

theorem foldl_addNode_totals (nds : List NodeModel) :
    ∀ net : NetworkModel,
      (nds.foldl NetworkModel.AddNode net).nRanks
          = net.nRanks + (nds.map (fun nd => nd.gpus.nGpus)).sum
      ∧ (nds.foldl NetworkModel.AddNode net).nodes.length = net.nodes.length + nds.length := by
  induction nds with
  | nil => intro net; simp
  | cons nd rest ih =>
    intro net
    obtain ⟨h1, h2⟩ := ih (net.AddNode nd)
    have e1 : (net.AddNode nd).nRanks = net.nRanks + nd.gpus.nGpus := rfl
    have e2 : (net.AddNode nd).nodes.length = net.nodes.length + 1 := by
      simp [NetworkModel.AddNode]
    rw [List.foldl_cons, h1, h2, e1, e2]
    simp only [List.map_cons, List.sum_cons, List.length_cons]
    omega

/-- Resolution in a network of four appended nodes with eight devices each. -/
theorem getNode_four_by_eight (a b c d : NodeModel) (ha : a.gpus.nGpus = 8)
    (hb : b.gpus.nGpus = 8) (hc : c.gpus.nGpus = 8) (hd : d.gpus.nGpus = 8) (r : Int) :
    (([a, b, c, d].foldl NetworkModel.AddNode {}).GetNode r).map (fun nd => nd.nodeId)
      = if 0 ≤ r ∧ r < 32 then some (r / 8) else none := by
  by_cases hr : 0 ≤ r ∧ r < 32
  · obtain ⟨h0, h32⟩ := hr
    interval_cases r <;>
      simp [NetworkModel.GetNode, NetworkModel.AddNode, ha, hb, hc, hd, List.find?]
  · have hout : r < 0 ∨ (32 : Int) ≤ r := by omega
    simp [NetworkModel.GetNode, NetworkModel.AddNode, ha, hb, hc, hd, hr, hout]

/-! ## Command-line lookup -/

theorem getCmdOption_not_mem (option : String) :
    ∀ argv : List String, option ∉ argv → getCmdOption argv option = none
  | [], _ => rfl
  | a :: rest, h => by
    have h1 : a ≠ option := fun e => h (by simp [e])
    have h2 : option ∉ rest := fun e => h (by simp [e])
    simp [getCmdOption, h1, getCmdOption_not_mem option rest h2]

theorem getCmdOption_split (option : String) (rest : List String) :
    ∀ pre : List String, option ∉ pre →
      getCmdOption (pre ++ option :: rest) option = rest.head?
  | [], _ => by simp [getCmdOption]
  | a :: pre, h => by
    have h1 : a ≠ option := fun e => h (by simp [e])
    have h2 : option ∉ pre := fun e => h (by simp [e])
    simp [getCmdOption, h1, getCmdOption_split option rest pre h2]

theorem getCmdOption_some_mem (option x : String) :
    ∀ argv : List String, getCmdOption argv option = some x → option ∈ argv := by
  intro argv h
  by_contra hc
  rw [getCmdOption_not_mem option argv hc] at h
  exact Option.noConfusion h

theorem toInt32_of_range (x : Int) (h1 : -(2 ^ 31) ≤ x) (h2 : x < 2 ^ 31) : toInt32 x = x := by
  unfold toInt32
  have : (x + 2 ^ 31) % 2 ^ 32 = x + 2 ^ 31 := Int.emod_eq_of_lt (by omega) (by omega)
  omega

/-- The run of `main` for model identifier 0: the trace of the catalog entry
with four nodes of eight devices. -/
theorem main_model_zero (tb : Tables) (argv : List String)
    (hm : cmdOptionExists argv "-m" = true) (hz : parseModelId argv = 0) :
    (main tb argv).outcome = Outcome.ret 0
      ∧ callsOf (main tb argv).trace =
        (List.range 32).map (fun i => (Collaborator.bootstrapAllGather, i))
        ++ (List.range 32).map (fun i => (Collaborator.initTransportsRank_1, i))
        ++ (List.range 32).map (fun i => (Collaborator.initTransportsRank_3, i))
      ∧ (linesOf (main tb argv).trace).head?
          = some "Generating topology using 0: 4 nodes with 8 GPUs PCIe 1 NIC\n"
      ∧ (linesOf (main tb argv).trace).getLast?
          = some "Done generating topology using 0: 4 nodes with 8 GPUs PCIe 1 NIC\n" := by
  obtain ⟨net, nodeOf, busOf, hnet, -, ht, ho⟩ :=
    main_valid tb argv hm (by rw [hz]) (by rw [hz]; norm_num)
  rw [hz] at hnet ht
  have hn : net.GetNRanks = 32 := by
    simp only [buildNetwork, switchNodes, ↓reduceIte, Option.map_some', Option.some.injEq]
      at hnet
    subst hnet
    rfl
  refine ⟨ho, ?_, ?_, ?_⟩
  · rw [ht, callsOf_fullTrace, hn]; rfl
  · rw [ht, linesOf_fullTrace]
    simp only [List.cons_append, List.head?_cons, Option.some.injEq]
    decide
  · rw [ht, linesOf_fullTrace]
    rw [List.getLast?_append, List.getLast?_singleton]
    show some _ = some _
    rw [Option.some.injEq]
    decide

/-! ## Runs that abort, and the digits of `%lx` -/

theorem digitChar_hex (m : Nat) (h : m < 16) :
    Nat.digitChar m ∈ "0123456789abcdef".toList := by
  interval_cases m <;> decide

theorem toDigitsCore_hex :
    ∀ (fuel n : Nat) (ds : List Char), (∀ c ∈ ds, c ∈ "0123456789abcdef".toList) →
      ∀ c ∈ Nat.toDigitsCore 16 fuel n ds, c ∈ "0123456789abcdef".toList
  | 0, _, ds, hds => by simpa [Nat.toDigitsCore] using hds
  | fuel + 1, n, ds, hds => by
    have hd := digitChar_hex (n % 16) (Nat.mod_lt _ (by norm_num))
    have hcons : ∀ c ∈ Nat.digitChar (n % 16) :: ds, c ∈ "0123456789abcdef".toList := by
      intro c hc
      rcases List.mem_cons.mp hc with e | e
      · rw [e]; exact hd
      · exact hds c e
    unfold Nat.toDigitsCore
    by_cases hz : n / 16 = 0
    · simpa [hz] using hcons
    · simpa [hz] using toDigitsCore_hex fuel (n / 16) _ hcons

/-- The `%lx` rendering uses the digits 0-9 and the lowercase letters a-f
only. -/
theorem fmtLx_lowercase (v : Nat) : ∀ c ∈ (fmtLx v).toList, c ∈ "0123456789abcdef".toList := by
  intro c hc
  exact toDigitsCore_hex _ _ [] (by simp) c hc

/-! ## Properties of the program -/

/-- C1: for every valid catalog id, the per-rank collaborator calls of `main`
are exactly `bootstrapAllGather` for ranks 0..n-1 in increasing order, then
`initTransportsRank_1` for ranks 0..n-1, then `initTransportsRank_3` for ranks
0..n-1, with n the rank count of the network; every rank finishes a phase
before any call of the next phase. -/
theorem main_call_sequence (tb : Tables) (argv : List String)
    (hm : cmdOptionExists argv "-m" = true)
    (h0 : 0 ≤ parseModelId argv) (h9 : parseModelId argv ≤ 9) :
    ∃ net, buildNetwork tb (parseModelId argv) = some net ∧
      callsOf (main tb argv).trace =
        (List.range net.GetNRanks.toNat).map (fun i => (Collaborator.bootstrapAllGather, i))
        ++ (List.range net.GetNRanks.toNat).map
            (fun i => (Collaborator.initTransportsRank_1, i))
        ++ (List.range net.GetNRanks.toNat).map
            (fun i => (Collaborator.initTransportsRank_3, i)) := by
  obtain ⟨net, nodeOf, busOf, hnet, -, ht, -⟩ := main_valid tb argv hm h0 h9
  exact ⟨net, hnet, by rw [ht, callsOf_fullTrace]⟩

/-- The call sequence at the sample command line `-m 4`. -/
theorem main_call_sequence_witness :
    cmdOptionExists sampleArgv "-m" = true ∧ 0 ≤ parseModelId sampleArgv
      ∧ parseModelId sampleArgv ≤ 9
      ∧ ∃ net, buildNetwork sampleTables (parseModelId sampleArgv) = some net ∧
        callsOf (main sampleTables sampleArgv).trace =
          (List.range net.GetNRanks.toNat).map (fun i => (Collaborator.bootstrapAllGather, i))
          ++ (List.range net.GetNRanks.toNat).map
              (fun i => (Collaborator.initTransportsRank_1, i))
          ++ (List.range net.GetNRanks.toNat).map
              (fun i => (Collaborator.initTransportsRank_3, i)) :=
  ⟨by decide, by decide, by decide,
    main_call_sequence sampleTables sampleArgv (by decide) (by decide) (by decide)⟩

/-- C2: for every valid catalog id the report of Phase 0 consists of exactly
one line per rank r below the rank count, in increasing order of r; the line of
rank r reads `Rank r: node n (d) GPU busId h`, with n and d the identifier and
description of the node rank r resolves to and h the bus identifier of device
`rankToCudaDev(r)` of that node; the run then reaches the completion line and
returns without an abort. -/
theorem main_topology_report (tb : Tables) (argv : List String)
    (hm : cmdOptionExists argv "-m" = true)
    (h0 : 0 ≤ parseModelId argv) (h9 : parseModelId argv ≤ 9) :
    ∃ (net : NetworkModel) (lineOf : Nat → String),
      buildNetwork tb (parseModelId argv) = some net
      ∧ linesOf (main tb argv).trace =
          ["Generating topology using " ++ fmtD (parseModelId argv) ++ ": "
              ++ descriptionOf (parseModelId argv) ++ "\n",
            "nnodes = " ++ fmtD net.GetNNodes ++ ", nranks = " ++ fmtD net.GetNRanks ++ "\n"]
          ++ (List.range net.GetNRanks.toNat).map lineOf
          ++ ["Done generating topology using " ++ fmtD (parseModelId argv) ++ ": "
              ++ descriptionOf (parseModelId argv) ++ "\n"]
      ∧ (∀ r < net.GetNRanks.toNat, ∃ nd dev bus,
          net.GetNode (r : Int) = some nd ∧ nd.rankToCudaDev r = some dev
          ∧ nd.getGpuBusId dev = some bus
          ∧ lineOf r = "Rank " ++ fmtD r ++ ": node " ++ fmtD nd.nodeId ++ " ("
              ++ nd.description ++ ") GPU busId "
              ++ String.mk (Nat.toDigits 16 (bus % 2 ^ 64)) ++ "\n")
      ∧ (main tb argv).outcome = Outcome.ret 0 := by
  obtain ⟨net, nodeOf, busOf, hnet, hres, ht, ho⟩ := main_valid tb argv hm h0 h9
  refine ⟨net, fun r => rankLine r (nodeOf r).nodeId (nodeOf r).description (busOf r), hnet,
    by rw [ht, linesOf_fullTrace], ?_, ho⟩
  intro r hr
  have hr2 : r < net.nRanks := by simpa [NetworkModel.GetNRanks] using hr
  obtain ⟨e1, e2, e3⟩ := hres r hr2
  exact ⟨nodeOf r, _, busOf r, e1, e2, e3, rfl⟩

/-- The topology report at the sample command line `-m 4`. -/
theorem main_topology_report_witness :
    cmdOptionExists sampleArgv "-m" = true ∧ 0 ≤ parseModelId sampleArgv
      ∧ parseModelId sampleArgv ≤ 9
      ∧ ∃ (net : NetworkModel) (lineOf : Nat → String),
        buildNetwork sampleTables (parseModelId sampleArgv) = some net
        ∧ linesOf (main sampleTables sampleArgv).trace =
            ["Generating topology using " ++ fmtD (parseModelId sampleArgv) ++ ": "
                ++ descriptionOf (parseModelId sampleArgv) ++ "\n",
              "nnodes = " ++ fmtD net.GetNNodes ++ ", nranks = " ++ fmtD net.GetNRanks ++ "\n"]
            ++ (List.range net.GetNRanks.toNat).map lineOf
            ++ ["Done generating topology using " ++ fmtD (parseModelId sampleArgv) ++ ": "
                ++ descriptionOf (parseModelId sampleArgv) ++ "\n"]
        ∧ (∀ r < net.GetNRanks.toNat, ∃ nd dev bus,
            net.GetNode (r : Int) = some nd ∧ nd.rankToCudaDev r = some dev
            ∧ nd.getGpuBusId dev = some bus
            ∧ lineOf r = "Rank " ++ fmtD r ++ ": node " ++ fmtD nd.nodeId ++ " ("
                ++ nd.description ++ ") GPU busId "
                ++ String.mk (Nat.toDigits 16 (bus % 2 ^ 64)) ++ "\n")
        ∧ (main sampleTables sampleArgv).outcome = Outcome.ret 0 :=
  ⟨by decide, by decide, by decide,
    main_topology_report sampleTables sampleArgv (by decide) (by decide) (by decide)⟩

/-- C3: for every valid catalog id 0..9 the rank count of the network the
switch builds is the sum of the device counts of the nodes it appends, namely
32, 32, 8, 32, 4, 8, 8, 8, 32, 40, and the node count is the number of `AddNode`
calls, namely 4, 4, 2, 4, 1, 1, 1, 1, 4, 6. -/
theorem switch_totals (tb : Tables) (model_id : Int) (h0 : 0 ≤ model_id) (h9 : model_id ≤ 9) :
    ∃ nds net, switchNodes tb model_id = some nds ∧ buildNetwork tb model_id = some net
      ∧ net.GetNRanks = ((nds.map (fun nd => nd.gpus.nGpus)).sum : Nat)
      ∧ net.GetNNodes = (nds.length : Nat)
      ∧ ([32, 32, 8, 32, 4, 8, 8, 8, 32, 40] : List Int)[model_id.toNat]? = some net.GetNRanks
      ∧ ([4, 4, 2, 4, 1, 1, 1, 1, 4, 6] : List Int)[model_id.toNat]? = some net.GetNNodes := by
  obtain ⟨nds, hn⟩ := Option.isSome_iff_exists.mp
    ((switchNodes_isSome tb model_id).mpr ⟨h0, h9⟩)
  obtain ⟨t1, t2⟩ := foldl_addNode_totals nds {}
  have hr : (nds.foldl NetworkModel.AddNode {}).GetNRanks
      = ((nds.map (fun nd => nd.gpus.nGpus)).sum : Nat) := by
    simp [NetworkModel.GetNRanks, t1]
  have hl : (nds.foldl NetworkModel.AddNode {}).GetNNodes = (nds.length : Nat) := by
    simp [NetworkModel.GetNNodes, t2]
  refine ⟨nds, nds.foldl NetworkModel.AddNode {}, hn, by simp [buildNetwork, hn], hr, hl, ?_⟩
  rw [hr, hl]
  interval_cases model_id <;> simp [switchNodes] at hn <;> subst hn <;>
    simp [model_8pcie_1nic, model_8pcie_2nic, model_vg20_4p1h_1nic, model_vg20_4p2h_1nic,
      model_gfx908_4p_1nic, model_gfx908_8p_1nic, model_gfx908_8p_1nic_1,
      model_8pcie_1nic_rome, model_8pcie_2nic_rome, vg20_pcie, vg20_4p1h, vg20_4p2h,
      gfx908_4p3l, gfx908_8p6l, gfx908_8p6l_1, vg20_pcie_rome]

/-- The totals of catalog entry 9. -/
theorem switch_totals_witness :
    (0 : Int) ≤ 9 ∧ (9 : Int) ≤ 9
      ∧ ∃ nds net, switchNodes sampleTables 9 = some nds
        ∧ buildNetwork sampleTables 9 = some net
        ∧ net.GetNRanks = ((nds.map (fun nd => nd.gpus.nGpus)).sum : Nat)
        ∧ net.GetNNodes = (nds.length : Nat)
        ∧ ([32, 32, 8, 32, 4, 8, 8, 8, 32, 40] : List Int)[(9 : Int).toNat]?
            = some net.GetNRanks
        ∧ ([4, 4, 2, 4, 1, 1, 1, 1, 4, 6] : List Int)[(9 : Int).toNat]? = some net.GetNNodes :=
  ⟨by decide, by decide, switch_totals sampleTables 9 (by decide) (by decide)⟩

/-- C4: for the catalog ids that select four nodes of eight accelerators each
(0, 1, 3 and 8) the network has 4 nodes and 32 ranks, rank 7 resolves to node 0
and rank 8 to node 1, every rank r resolves to node r / 8, and the mapping from
ranks to nodes is monotonic. -/
theorem four_by_eight_resolution (tb : Tables) (model_id : Int)
    (hid : model_id = 0 ∨ model_id = 1 ∨ model_id = 3 ∨ model_id = 8) :
    ∃ net, buildNetwork tb model_id = some net
      ∧ net.GetNNodes = 4 ∧ net.GetNRanks = 32
      ∧ (net.GetNode 7).map (fun nd => nd.nodeId) = some 0
      ∧ (net.GetNode 8).map (fun nd => nd.nodeId) = some 1
      ∧ (∀ r : Int, 0 ≤ r → r < 32 →
          (net.GetNode r).map (fun nd => nd.nodeId) = some (r / 8))
      ∧ (∀ (r1 r2 : Int) (n1 n2 : NodeModel), r1 < r2 → net.GetNode r1 = some n1 →
          net.GetNode r2 = some n2 → n1.nodeId ≤ n2.nodeId) := by
  have key : ∀ x : NodeModel, x.gpus.nGpus = 8 →
      switchNodes tb model_id = some (List.replicate 4 x) →
      ∃ net, buildNetwork tb model_id = some net
      ∧ net.GetNNodes = 4 ∧ net.GetNRanks = 32
      ∧ (net.GetNode 7).map (fun nd => nd.nodeId) = some 0
      ∧ (net.GetNode 8).map (fun nd => nd.nodeId) = some 1
      ∧ (∀ r : Int, 0 ≤ r → r < 32 →
          (net.GetNode r).map (fun nd => nd.nodeId) = some (r / 8))
      ∧ (∀ (r1 r2 : Int) (n1 n2 : NodeModel), r1 < r2 → net.GetNode r1 = some n1 →
          net.GetNode r2 = some n2 → n1.nodeId ≤ n2.nodeId) := by
    intro x hx hsw
    have hres := getNode_four_by_eight x x x x hx hx hx hx
    refine ⟨[x, x, x, x].foldl NetworkModel.AddNode {}, ?_, ?_, ?_, ?_, ?_, ?_, ?_⟩
    · simp [buildNetwork, hsw, List.replicate]
    · simp [NetworkModel.GetNNodes, NetworkModel.AddNode]
    · simp [NetworkModel.GetNRanks, NetworkModel.AddNode, hx]
    · rw [hres 7]; simp
    · rw [hres 8]; simp
    · intro r h0 h32
      rw [hres r]; simp [h0, h32]
    · intro r1 r2 n1 n2 hlt e1 e2
      have q1 := hres r1
      have q2 := hres r2
      rw [e1] at q1
      rw [e2] at q2
      by_cases c1 : 0 ≤ r1 ∧ r1 < 32
      · by_cases c2 : 0 ≤ r2 ∧ r2 < 32
        · simp only [Option.map_some', c1, c2, and_self, ↓reduceIte, Option.some.injEq] at q1 q2
          rw [q1, q2]
          exact Int.ediv_le_ediv (by norm_num) (le_of_lt hlt)
        · simp [c2] at q2
      · simp [c1] at q1
  rcases hid with h | h | h | h <;> subst h
  · exact key (model_8pcie_1nic tb) rfl (by simp [switchNodes])
  · exact key (model_8pcie_2nic tb) rfl (by simp [switchNodes])
  · exact key (model_vg20_4p2h_1nic tb) rfl (by simp [switchNodes])
  · exact key (model_8pcie_2nic_rome tb) rfl (by simp [switchNodes])

/-- Rank resolution for catalog entry 3. -/
theorem four_by_eight_resolution_witness :
    ((3 : Int) = 0 ∨ (3 : Int) = 1 ∨ (3 : Int) = 3 ∨ (3 : Int) = 8)
      ∧ ∃ net, buildNetwork sampleTables 3 = some net
        ∧ net.GetNNodes = 4 ∧ net.GetNRanks = 32
        ∧ (net.GetNode 7).map (fun nd => nd.nodeId) = some 0
        ∧ (net.GetNode 8).map (fun nd => nd.nodeId) = some 1
        ∧ (∀ r : Int, 0 ≤ r → r < 32 →
            (net.GetNode r).map (fun nd => nd.nodeId) = some (r / 8))
        ∧ (∀ (r1 r2 : Int) (n1 n2 : NodeModel), r1 < r2 → net.GetNode r1 = some n1 →
            net.GetNode r2 = some n2 → n1.nodeId ≤ n2.nodeId) :=
  ⟨by decide, four_by_eight_resolution sampleTables 3 (by decide)⟩

set_option maxRecDepth 100000 in
/-- C5: the code at the argument `4294967296`, whose integer value lies outside
0..9. The value `atol` returns does not fit the `int model_id` it is assigned
to at line 95 and becomes 0 there, so the `default` branch is not taken and
the program runs the whole simulation of catalog entry 0 instead of printing
the error; at the argument `10` the `default` branch prints the error and
exits. -/
theorem wide_model_id_runs_entry_zero :
    getCmdOption wideArgv "-m" = some "4294967296"
      ∧ atol "4294967296" = 4294967296
      ∧ ¬ (0 ≤ atol "4294967296" ∧ atol "4294967296" ≤ 9)
      ∧ parseModelId wideArgv = 0
      ∧ (main sampleTables wideArgv).outcome = Outcome.ret 0
      ∧ (linesOf (main sampleTables wideArgv).trace).head?
          = some "Generating topology using 0: 4 nodes with 8 GPUs PCIe 1 NIC\n"
      ∧ "Invalid model_id 4294967296\n" ∉ linesOf (main sampleTables wideArgv).trace
      ∧ (callsOf (main sampleTables wideArgv).trace).length = 96
      ∧ linesOf (main sampleTables ["./topo_expl", "-m", "10"]).trace = ["Invalid model_id 10\n"]
      ∧ (main sampleTables ["./topo_expl", "-m", "10"]).outcome = Outcome.exit 0 := by
  decide

/-- The `default` branch of the switch: an argument whose integer value fits
the `int model_id` and lies outside 0..9 makes the program print
`Invalid model_id` with that value and exit with status 0, with no other line
and no collaborator call. -/
theorem default_branch_rejects (tb : Tables) (argv : List String) (mi : String)
    (hmi : getCmdOption argv "-m" = some mi)
    (hfit : -(2 ^ 31) ≤ atol mi ∧ atol mi < 2 ^ 31)
    (hbad : atol mi < 0 ∨ 9 < atol mi) :
    (main tb argv).trace = [Event.printf ("Invalid model_id " ++ fmtD (atol mi) ++ "\n")]
      ∧ (main tb argv).outcome = Outcome.exit 0
      ∧ callsOf (main tb argv).trace = [] := by
  have hm : cmdOptionExists argv "-m" = true := by
    simpa [cmdOptionExists] using getCmdOption_some_mem "-m" mi argv hmi
  have hid : parseModelId argv = atol mi := by
    simp [parseModelId, hmi, toInt32_of_range (atol mi) hfit.1 hfit.2]
  have hnone : buildNetwork tb (atol mi) = none := by
    have hs : switchNodes tb (atol mi) = none := by
      cases hsw : switchNodes tb (atol mi) with
      | none => rfl
      | some nds =>
        have := (switchNodes_isSome tb (atol mi)).mp (by simp [hsw])
        omega
    simp [buildNetwork, hs]
  have hmain : main tb argv
      = { trace := [Event.printf ("Invalid model_id " ++ fmtD (atol mi) ++ "\n")],
          outcome := Outcome.exit 0 } := by
    simp [main, hm, hnone, hid]
  rw [hmain]
  exact ⟨rfl, rfl, rfl⟩

/-- C6: for every argument vector without the token `-m` the program prints
the usage text, then one line per catalog entry with its index and description
for exactly the indices 0..9 in increasing order (the identifiers the switch
accepts), and exits with status 0; no allocation and no collaborator call is
made. -/
theorem usage_without_option (tb : Tables) (argv : List String) (h : "-m" ∉ argv) :
    (main tb argv).trace =
        Event.printf "Usage: ./topo_expl -m model_id\n" :: Event.printf "List of model_id:\n"
          :: (List.range 10).map (fun (i : Nat) =>
              Event.printf ("  " ++ fmtD i ++ ": " ++ descriptionOf i ++ "\n"))
      ∧ linesOf (main tb argv).trace =
        ["Usage: ./topo_expl -m model_id\n", "List of model_id:\n",
          "  0: 4 nodes with 8 GPUs PCIe 1 NIC\n",
          "  1: 4 nodes with 8 GPUs PCIe 2 NIC\n",
          "  2: 2 nodes VEGA20 4P1H\n",
          "  3: 4 nodes with 8 VEGA20 GPUs XGMI 4P2H 1 NIC\n",
          "  4: single node gfx908 4P3L\n",
          "  5: single node gfx908 8P6L\n",
          "  6: single node gfx908 8P6L Alt. Connection\n",
          "  7: single node 8 GPUs PCIe on Rome\n",
          "  8: 4 nodes 8 GPUs PCIe 2 NICs on Rome\n",
          "  9: 3 nodes 8 GPUs PCIe + 1 Rome 8 GPUs PCIe + 2 nodes gfx908 4P3L\n"]
      ∧ (main tb argv).outcome = Outcome.exit 0
      ∧ callsOf (main tb argv).trace = []
      ∧ (∀ model_id : Int,
          (buildNetwork tb model_id).isSome = true ↔ 0 ≤ model_id ∧ model_id < 10) := by
  have hm : cmdOptionExists argv "-m" = false := by simp [cmdOptionExists, h]
  have hmain : main tb argv
      = { trace := Event.printf "Usage: ./topo_expl -m model_id\n"
            :: Event.printf "List of model_id:\n" :: usageLoop model_descriptions 0,
          outcome := Outcome.exit 0 } := by
    simp [main, hm]
  rw [hmain]
  refine ⟨rfl, by decide, rfl, by decide, ?_⟩
  intro model_id
  have := switchNodes_isSome tb model_id
  simp only [buildNetwork, Option.isSome_map']
  rw [this]
  omega

/-- The usage text at a command line without `-m`. -/
theorem usage_without_option_witness :
    "-m" ∉ ["./topo_expl", "-x", "3"]
      ∧ linesOf (main sampleTables ["./topo_expl", "-x", "3"]).trace =
        ["Usage: ./topo_expl -m model_id\n", "List of model_id:\n",
          "  0: 4 nodes with 8 GPUs PCIe 1 NIC\n",
          "  1: 4 nodes with 8 GPUs PCIe 2 NIC\n",
          "  2: 2 nodes VEGA20 4P1H\n",
          "  3: 4 nodes with 8 VEGA20 GPUs XGMI 4P2H 1 NIC\n",
          "  4: single node gfx908 4P3L\n",
          "  5: single node gfx908 8P6L\n",
          "  6: single node gfx908 8P6L Alt. Connection\n",
          "  7: single node 8 GPUs PCIe on Rome\n",
          "  8: 4 nodes 8 GPUs PCIe 2 NICs on Rome\n",
          "  9: 3 nodes 8 GPUs PCIe + 1 Rome 8 GPUs PCIe + 2 nodes gfx908 4P3L\n"]
      ∧ (main sampleTables ["./topo_expl", "-x", "3"]).outcome = Outcome.exit 0 :=
  ⟨by decide,
    (usage_without_option sampleTables ["./topo_expl", "-x", "3"] (by decide)).2.1,
    (usage_without_option sampleTables ["./topo_expl", "-x", "3"] (by decide)).2.2.1⟩

/-- C10: `getCmdOption` returns the token right after the first occurrence of
the option, and null when the option is absent or is the last token; so when
`-m` is the last argument, or the token after it parses to 0, `model_id` is 0
and the program runs the whole simulation of catalog entry 0, with no error
and no usage text. -/
theorem getCmdOption_and_default (tb : Tables) (pre rest : List String) (option : String)
    (hpre : option ∉ pre) :
    getCmdOption (pre ++ option :: rest) option = rest.head?
      ∧ getCmdOption pre option = none
      ∧ getCmdOption (pre ++ [option]) option = none
      ∧ (option = "-m" → (rest = [] ∨ ∃ mi, rest.head? = some mi ∧ atol mi = 0) →
          parseModelId (pre ++ option :: rest) = 0
          ∧ (main tb (pre ++ option :: rest)).outcome = Outcome.ret 0
          ∧ callsOf (main tb (pre ++ option :: rest)).trace =
              (List.range 32).map (fun i => (Collaborator.bootstrapAllGather, i))
              ++ (List.range 32).map (fun i => (Collaborator.initTransportsRank_1, i))
              ++ (List.range 32).map (fun i => (Collaborator.initTransportsRank_3, i))
          ∧ (linesOf (main tb (pre ++ option :: rest)).trace).head?
              = some "Generating topology using 0: 4 nodes with 8 GPUs PCIe 1 NIC\n"
          ∧ (linesOf (main tb (pre ++ option :: rest)).trace).getLast?
              = some "Done generating topology using 0: 4 nodes with 8 GPUs PCIe 1 NIC\n") := by
  have hsplit := getCmdOption_split option rest pre hpre
  refine ⟨hsplit, getCmdOption_not_mem option pre hpre, ?_, ?_⟩
  · simpa using getCmdOption_split option [] pre hpre
  · intro hopt hz
    subst hopt
    have hm : cmdOptionExists (pre ++ "-m" :: rest) "-m" = true := by simp [cmdOptionExists]
    have hid : parseModelId (pre ++ "-m" :: rest) = 0 := by
      unfold parseModelId
      rw [hsplit]
      rcases hz with hnil | ⟨mi, hh, ha⟩
      · subst hnil; rfl
      · rw [hh]
        show toInt32 (atol mi) = 0
        rw [ha]; rfl
    exact ⟨hid, main_model_zero tb _ hm hid⟩

/-- The lookup and the run at the command line `-m abc`. -/
theorem getCmdOption_and_default_witness :
    "-m" ∉ ["./topo_expl"]
      ∧ getCmdOption ["./topo_expl", "-m", "abc"] "-m" = some "abc"
      ∧ atol "abc" = 0
      ∧ parseModelId ["./topo_expl", "-m", "abc"] = 0
      ∧ (main sampleTables ["./topo_expl", "-m", "abc"]).outcome = Outcome.ret 0
      ∧ (linesOf (main sampleTables ["./topo_expl", "-m", "abc"]).trace).head?
          = some "Generating topology using 0: 4 nodes with 8 GPUs PCIe 1 NIC\n" :=
  ⟨by decide,
    (getCmdOption_and_default sampleTables ["./topo_expl"] ["abc"] "-m" (by decide)).1,
    by decide,
    ((getCmdOption_and_default sampleTables ["./topo_expl"] ["abc"] "-m" (by decide)).2.2.2
      rfl (Or.inr ⟨"abc", rfl, by decide⟩)).1,
    ((getCmdOption_and_default sampleTables ["./topo_expl"] ["abc"] "-m" (by decide)).2.2.2
      rfl (Or.inr ⟨"abc", rfl, by decide⟩)).2.1,
    ((getCmdOption_and_default sampleTables ["./topo_expl"] ["abc"] "-m" (by decide)).2.2.2
      rfl (Or.inr ⟨"abc", rfl, by decide⟩)).2.2.2.1⟩

/-- C8, the claim as stated fails: the line printed for rank 0 of catalog
entry 4 reads `GPU busId`, and the line in the spec's wording, with
`accelerator bus id`, is not printed. -/
theorem rank_line_wording_differs :
    (linesOf (main sampleTables sampleArgv).trace)[2]?
        = some "Rank 0: node 0 (Skylake gfx908 4P3L) GPU busId 1a000\n"
      ∧ specRankLine 0 0 "Skylake gfx908 4P3L" 0x1a000
          = "Rank 0: node 0 (Skylake gfx908 4P3L) accelerator bus id 1a000\n"
      ∧ specRankLine 0 0 "Skylake gfx908 4P3L" 0x1a000
          ∉ linesOf (main sampleTables sampleArgv).trace := by
  decide

/-- C8 (amended): for every valid catalog id and every rank r, the per-rank
line printed in Phase 0 is exactly `Rank <r>: node <n> (<description>) GPU
busId <hex>` and a newline, where n and description are those of the resolved
node and hex is the lowercase hexadecimal rendering of the bus identifier of
the device rank r drives. -/
theorem rank_line_format (tb : Tables) (argv : List String)
    (hm : cmdOptionExists argv "-m" = true)
    (h0 : 0 ≤ parseModelId argv) (h9 : parseModelId argv ≤ 9) :
    ∃ net, buildNetwork tb (parseModelId argv) = some net ∧
      ∀ r < net.GetNRanks.toNat, ∃ nd dev bus,
        net.GetNode (r : Int) = some nd ∧ nd.rankToCudaDev r = some dev
        ∧ nd.getGpuBusId dev = some bus
        ∧ (linesOf (main tb argv).trace)[2 + r]? =
            some ("Rank " ++ fmtD r ++ ": node " ++ fmtD nd.nodeId ++ " (" ++ nd.description
              ++ ") GPU busId " ++ String.mk (Nat.toDigits 16 (bus % 2 ^ 64)) ++ "\n")
        ∧ ∀ c ∈ Nat.toDigits 16 (bus % 2 ^ 64), c ∈ "0123456789abcdef".toList := by
  obtain ⟨net, nodeOf, busOf, hnet, hres, ht, -⟩ := main_valid tb argv hm h0 h9
  refine ⟨net, hnet, ?_⟩
  intro r hr
  have hr2 : r < net.nRanks := by simpa [NetworkModel.GetNRanks] using hr
  obtain ⟨e1, e2, e3⟩ := hres r hr2
  refine ⟨nodeOf r, _, busOf r, e1, e2, e3, ?_, fun c hc => fmtLx_lowercase (busOf r) c hc⟩
  rw [ht, linesOf_fullTrace]
  have hlen : r < ((List.range net.GetNRanks.toNat).map (fun (i : Nat) =>
      rankLine i (nodeOf i).nodeId (nodeOf i).description (busOf i))).length := by
    simpa using hr
  rw [List.append_assoc, List.getElem?_append_right (by simp)]
  simp only [List.length_cons, List.length_nil, Nat.zero_add, Nat.reduceAdd,
    Nat.add_sub_cancel_left]
  rw [List.getElem?_append_left hlen]
  simp [hr, rankLine, fmtLx]

/-- The per-rank lines at the sample command line `-m 4`. -/
theorem rank_line_format_witness :
    cmdOptionExists sampleArgv "-m" = true ∧ 0 ≤ parseModelId sampleArgv
      ∧ parseModelId sampleArgv ≤ 9
      ∧ ∃ net, buildNetwork sampleTables (parseModelId sampleArgv) = some net ∧
        ∀ r < net.GetNRanks.toNat, ∃ nd dev bus,
          net.GetNode (r : Int) = some nd ∧ nd.rankToCudaDev r = some dev
          ∧ nd.getGpuBusId dev = some bus
          ∧ (linesOf (main sampleTables sampleArgv).trace)[2 + r]? =
              some ("Rank " ++ fmtD r ++ ": node " ++ fmtD nd.nodeId ++ " (" ++ nd.description
                ++ ") GPU busId " ++ String.mk (Nat.toDigits 16 (bus % 2 ^ 64)) ++ "\n")
          ∧ ∀ c ∈ Nat.toDigits 16 (bus % 2 ^ 64), c ∈ "0123456789abcdef".toList :=
  ⟨by decide, by decide, by decide,
    rank_line_format sampleTables sampleArgv (by decide) (by decide) (by decide)⟩

end TopoExpl
